import Mathlib

/-!
Verification of the next-zod-route builder/pipeline library.

The development shallowly embeds two revisions of `RouteHandlerBuilder`:

* `SrcMain` follows `src/routeHandlerBuilder.ts` (no metadata support; on a
  successful `safeParse` the raw value is replaced by the parsed data; the
  catch block checks `InternalRouteHandlerError` before the custom server
  error handler).
* `MetaVer` follows the revision with metadata support (a `metadataSchema`
  and `metadataValue` slot, a `metadata` chain method that throws when no
  schema was registered, and a request-time metadata re-validation stage
  that logs a diagnostic via `console.error`).

JavaScript objects are embedded as association lists of string keys whose
lookup is first-match; object spread (`{...a, ...b}`) is embedded as
assigning each entry of `b` into `a` in order (`spread`), which preserves
the JavaScript overwrite-in-place / append-new-key semantics, and
`Object.fromEntries` is `spread` into the empty object.  The external zod
engine is an opaque capability `safeParse : Val → Except (List Issue) Val`.
`request.json()` is the field `jsonBody : Except String Val` of the request
(`.error` embeds a rejected parse of a malformed body).  The pipelines are
instrumented with an event trace (`Ev`) recording each schema invocation,
each `console.error`, each middleware invocation and the user-handler
invocation, so that ordering and short-circuiting are directly statable.
-/

namespace NextZodRoute

/-- Claim-neutral embedding of a JavaScript/JSON value (`undefined`, strings,
numbers, booleans, and objects as entry lists). -/
inductive Val where
  | vUndef : Val
  | vStr : String → Val
  | vNum : Int → Val
  | vBool : Bool → Val
  | vObj : List (String × Val) → Val

/-- A zod issue: a path into the input plus a message. -/
structure Issue where
  path : List String
  message : String

/-- The opaque schema capability: `safeParse` yields parsed data or issues. -/
structure Schema where
  safeParse : Val → Except (List Issue) Val

/-- Structural embedding of the JSON text bodies the library produces, plus
arbitrary user-produced bodies. -/
inductive RBody where
  | jsonMsgErrors (message : String) (errors : List Issue)
  | jsonMsg (message : String)
  | raw (s : String)

/-- An HTTP response: a status code and a body. -/
structure Response where
  status : Nat
  body : RBody

/-- The incoming request: its method, the query-string entries of its URL in
order of occurrence, and the outcome of `request.json()` (`.error` embeds a
rejected JSON parse). -/
structure Req where
  method : String
  searchEntries : List (String × String)
  jsonBody : Except String Val

/-- The framework route context, optionally carrying path params. -/
structure RouteCtx where
  params : Option Val

/-- JavaScript property assignment `m[k] = v`: overwrite the first entry with
key `k` in place, or append a new entry. -/
def setKey {α : Type} : List (String × α) → String → α → List (String × α)
  | [], k, v => [(k, v)]
  | (k', v') :: rest, k, v =>
    if k' = k then (k, v) :: rest else (k', v') :: setKey rest k v

/-- JavaScript property read `m[k]`: first entry with key `k`. -/
def getKey {α : Type} : List (String × α) → String → Option α
  | [], _ => none
  | (k', v) :: rest, k => if k' = k then some v else getKey rest k

/-- JavaScript object spread `{...a, ...b}`: assign each entry of `b` into
`a` in order. -/
def spread {α : Type} (a b : List (String × α)) : List (String × α) :=
  b.foldl (fun m kv => setKey m kv.1 kv.2) a

/-- Embedding of `Object.fromEntries`: assign every entry, in order, into an empty
object. -/
def fromEntries {α : Type} (l : List (String × α)) : List (String × α) :=
  spread [] l

/-- The value attached to the last occurrence of key `k` in an entry list. -/
def lastVal {α : Type} : List (String × α) → String → Option α
  | [], _ => none
  | (k', v) :: rest, k =>
    match lastVal rest k with
    | some w => some w
    | none => if k' = k then some v else none

/-- Whether a value is a string. -/
def Val.isStr : Val → Bool
  | .vStr _ => true
  | _ => false

/-- The two classes of thrown errors the catch of the pipeline distinguishes:
`InternalRouteHandlerError` (carrying the serialized `{message, errors}`
payload) and every other thrown error (carrying its message). -/
inductive Err where
  | internalRoute (message : String) (errors : List Issue)
  | other (msg : String)

/-- Trace events: the `safeParse` of a schema was invoked on the named input, a
`console.error` was emitted, the `k`-th middleware was invoked, the user
handler was invoked. -/
inductive Ev where
  | parsed (label : String)
  | logged (msg : String)
  | mwRun (k : Nat)
  | handlerRun

/-- The middleware accumulator / JS context object. -/
abbrev Ctx := List (String × Val)

end NextZodRoute

namespace NextZodRoute.SrcMain

open NextZodRoute

/-- The schema slots of the builder configuration (`undefined` = absent). -/
structure Config where
  paramsSchema : Option Schema
  querySchema : Option Schema
  bodySchema : Option Schema

/-- A middleware `({request, context}) => Promise<fragment>`; `.error` embeds
a thrown/rejected middleware. -/
abbrev Mw := Req → Ctx → Except String Ctx

/-- The custom server-error handler `(error) => Response`. -/
abbrev HandlerServerErrorFn := String → Response

/-- The builder of `src/routeHandlerBuilder.ts`: schema config, middleware
sequence, optional custom server-error handler. -/
structure RouteHandlerBuilder where
  config : Config
  middlewares : List Mw
  handleServerError : Option HandlerServerErrorFn

/-- Chain method `params(schema)`: a new builder whose config is the old one with the
params slot overwritten. -/
def RouteHandlerBuilder.params (b : RouteHandlerBuilder) (schema : Schema) :
    RouteHandlerBuilder :=
  { b with config := { b.config with paramsSchema := some schema } }

/-- Chain method `query(schema)`: a new builder whose config is the old one with the
query slot overwritten. -/
def RouteHandlerBuilder.query (b : RouteHandlerBuilder) (schema : Schema) :
    RouteHandlerBuilder :=
  { b with config := { b.config with querySchema := some schema } }

/-- Chain method `body(schema)`: a new builder whose config is the old one with the
body slot overwritten. -/
def RouteHandlerBuilder.body (b : RouteHandlerBuilder) (schema : Schema) :
    RouteHandlerBuilder :=
  { b with config := { b.config with bodySchema := some schema } }

/-- Chain method `use(middleware)`: a new builder whose middleware sequence is a copy of
the old one with the middleware appended (`[...this.middlewares, mw]`). -/
def RouteHandlerBuilder.use (b : RouteHandlerBuilder) (m : Mw) :
    RouteHandlerBuilder :=
  { b with middlewares := b.middlewares ++ [m] }

/-- The context object handed to the user handler. -/
structure HandlerCtx where
  params : Val
  query : Val
  body : Val
  data : Ctx

/-- The user handler; `.error` embeds a thrown/rejected handler. -/
abbrev HandlerFn := Req → HandlerCtx → Except String Response

/-- Body extraction, `request.method` not equal to `GET` attempts `await request.json()`, a GET request gets the empty object.
A rejected JSON parse is a thrown (non-internal) error; on GET the request
body is never touched. -/
def extractBody (req : Req) : Except Err Val :=
  if req.method ≠ "GET" then
    match req.jsonBody with
    | .ok v => .ok v
    | .error e => .error (.other e)
  else .ok (.vObj [])

/-- Query extraction:
`Object.fromEntries(url.searchParams.entries())` as a string-valued object,
then viewed as a `Val`. -/
def queryObj (req : Req) : Val :=
  .vObj ((fromEntries req.searchEntries).map (fun kv => (kv.1, Val.vStr kv.2)))

/-- Params extraction: `context?.params ? await context.params : {}`. -/
def extractParams (rctx : RouteCtx) : Val :=
  rctx.params.getD (.vObj [])

/-- One validation stage: if the slot holds a schema, invoke `safeParse`
(recorded in the trace); on failure throw `InternalRouteHandlerError` with
the serialized `{message, errors}`; on success continue with the parsed
data (the raw value is replaced). -/
def valStage (os : Option Schema) (label msg : String) (v : Val) :
    Except Err Val × List Ev :=
  match os with
  | none => (.ok v, [])
  | some s =>
    match s.safeParse v with
    | .ok d => (.ok d, [.parsed label])
    | .error issues => (.error (.internalRoute msg issues), [.parsed label])

/-- The middleware loop: invoke each middleware (recorded in the trace) on
the request and the accumulator so far, and spread its fragment into the
accumulator; a thrown middleware aborts the loop. -/
def runMws : List Mw → Req → Ctx → Nat → Except String Ctx × List Ev
  | [], _, acc, _ => (.ok acc, [])
  | m :: rest, req, acc, k =>
    match m req acc with
    | .error e => (.error e, [.mwRun k])
    | .ok frag =>
      let r := runMws rest req (spread acc frag) (k + 1)
      (r.1, .mwRun k :: r.2)

/-- The try-block of the produced handler: extraction, the three validation
stages in fixed order, the middleware fold, then the user handler, each
short-circuiting on failure; paired with the event trace. -/
def runPipe (b : RouteHandlerBuilder) (hf : HandlerFn) (req : Req)
    (rctx : RouteCtx) : Except Err Response × List Ev :=
  match extractBody req with
  | .error e => (.error e, [])
  | .ok body0 =>
    match valStage b.config.paramsSchema "params" "Invalid params"
        (extractParams rctx) with
    | (.error e, t1) => (.error e, t1)
    | (.ok params1, t1) =>
      match valStage b.config.querySchema "query" "Invalid query"
          (queryObj req) with
      | (.error e, t2) => (.error e, t1 ++ t2)
      | (.ok query1, t2) =>
        match valStage b.config.bodySchema "body" "Invalid body" body0 with
        | (.error e, t3) => (.error e, t1 ++ t2 ++ t3)
        | (.ok body1, t3) =>
          match runMws b.middlewares req [] 0 with
          | (.error e, tm) => (.error (.other e), t1 ++ t2 ++ t3 ++ tm)
          | (.ok mctx, tm) =>
            match hf req ⟨params1, query1, body1, mctx⟩ with
            | .error e =>
              (.error (.other e), t1 ++ t2 ++ t3 ++ tm ++ [.handlerRun])
            | .ok resp =>
              (.ok resp, t1 ++ t2 ++ t3 ++ tm ++ [.handlerRun])

/-- The catch block: an `InternalRouteHandlerError` becomes a 400 response
carrying its payload; any other error goes to the custom server-error
handler when configured, else to the generic 500 response. -/
def catchBoundary (b : RouteHandlerBuilder) (r : Except Err Response) :
    Response :=
  match r with
  | .ok resp => resp
  | .error (.internalRoute msg issues) => ⟨400, .jsonMsgErrors msg issues⟩
  | .error (.other e) =>
    match b.handleServerError with
    | some h => h e
    | none => ⟨500, .jsonMsg "Internal server error"⟩

/-- The produced route handler: the try-block wrapped in the catch block. -/
def routeHandler (b : RouteHandlerBuilder) (hf : HandlerFn) (req : Req)
    (rctx : RouteCtx) : Response :=
  catchBoundary b (runPipe b hf req rctx).1

/-- How a user-handler outcome surfaces through the catch block: its
response verbatim, or its thrown error translated like any non-internal
error. -/
def finalize (b : RouteHandlerBuilder) (r : Except String Response) :
    Response :=
  match r with
  | .ok resp => resp
  | .error e => catchBoundary b (.error (.other e))

end NextZodRoute.SrcMain

namespace NextZodRoute.MetaVer

open NextZodRoute

/-- The schema slots of the builder configuration (`undefined` = absent). -/
structure Config where
  paramsSchema : Option Schema
  querySchema : Option Schema
  bodySchema : Option Schema

/-- A middleware `({request, metadata, context}) => Promise<fragment>`;
`.error` embeds a thrown/rejected middleware. -/
abbrev Mw := Req → Val → Ctx → Except String Ctx

/-- The metadata-supporting builder: schema config, middleware sequence,
optional custom server-error handler, and the metadata schema/value slots
(`metadataValue` starts as `undefined`). -/
structure RouteHandlerBuilder where
  config : Config
  middlewares : List Mw
  handleServerError : Option (String → Response)
  metadataSchema : Option Schema
  metadataValue : Val

/-- Chain method `params(schema)`: a new builder whose config is the old one with the
params slot overwritten. -/
def RouteHandlerBuilder.params (b : RouteHandlerBuilder) (schema : Schema) :
    RouteHandlerBuilder :=
  { b with config := { b.config with paramsSchema := some schema } }

/-- Chain method `query(schema)`: a new builder whose config is the old one with the
query slot overwritten. -/
def RouteHandlerBuilder.query (b : RouteHandlerBuilder) (schema : Schema) :
    RouteHandlerBuilder :=
  { b with config := { b.config with querySchema := some schema } }

/-- Chain method `body(schema)`: a new builder whose config is the old one with the
body slot overwritten. -/
def RouteHandlerBuilder.body (b : RouteHandlerBuilder) (schema : Schema) :
    RouteHandlerBuilder :=
  { b with config := { b.config with bodySchema := some schema } }

/-- Chain method `metadata(data)`: throws `Metadata schema is not defined` at
configuration time when no metadata schema was registered; otherwise a new
builder with the metadata value overwritten. -/
def RouteHandlerBuilder.metadata (b : RouteHandlerBuilder) (data : Val) :
    Except String RouteHandlerBuilder :=
  match b.metadataSchema with
  | none => .error "Metadata schema is not defined"
  | some _ => .ok { b with metadataValue := data }

/-- Chain method `use(middleware)`: a new builder whose middleware sequence is a copy of
the old one with the middleware appended (`[...this.middlewares, mw]`). -/
def RouteHandlerBuilder.use (b : RouteHandlerBuilder) (m : Mw) :
    RouteHandlerBuilder :=
  { b with middlewares := b.middlewares ++ [m] }

/-- The context object handed to the user handler (this revision also
exposes the metadata value). -/
structure HandlerCtx where
  params : Val
  query : Val
  body : Val
  data : Ctx
  metadata : Val

/-- The user handler; `.error` embeds a thrown/rejected handler. -/
abbrev HandlerFn := Req → HandlerCtx → Except String Response

/-- Params extraction in this revision: `context?.params || {}`. -/
def extractParams (rctx : RouteCtx) : Val :=
  rctx.params.getD (.vObj [])

/-- One validation stage of this revision: invoke `safeParse` when the slot
holds a schema (recorded in the trace) and throw on failure; on success the
parsed data is dropped and the raw value flows on. -/
def checkStage (os : Option Schema) (label msg : String) (v : Val) :
    Except Err Unit × List Ev :=
  match os with
  | none => (.ok (), [])
  | some s =>
    match s.safeParse v with
    | .ok _ => (.ok (), [.parsed label])
    | .error issues => (.error (.internalRoute msg issues), [.parsed label])

/-- The `console.error` diagnostic emitted by the metadata stage. -/
def metadataLogMsg : String :=
  "Error: You define a metadata schema but didn\x27t provide a metadata value."

/-- The metadata stage: when a metadata schema is registered, re-validate
the stored metadata value; on failure log the diagnostic and throw the
`Invalid metadata (Server Side)` internal error. -/
def metadataStage (os : Option Schema) (v : Val) : Except Err Unit × List Ev :=
  match os with
  | none => (.ok (), [])
  | some s =>
    match s.safeParse v with
    | .ok _ => (.ok (), [.parsed "metadata"])
    | .error issues =>
      (.error (.internalRoute "Invalid metadata (Server Side)" issues),
        [.parsed "metadata", .logged metadataLogMsg])

/-- The middleware loop of this revision: each middleware receives the
request, the metadata value and the accumulator so far; its fragment is
spread into the accumulator. -/
def runMws : List Mw → Req → Val → Ctx → Nat → Except String Ctx × List Ev
  | [], _, _, acc, _ => (.ok acc, [])
  | m :: rest, req, md, acc, k =>
    match m req md acc with
    | .error e => (.error e, [.mwRun k])
    | .ok frag =>
      let r := runMws rest req md (spread acc frag) (k + 1)
      (r.1, .mwRun k :: r.2)

/-- The try-block of the produced handler of this revision: extraction, the three
validation stages, the metadata stage, the middleware fold, then the user
handler (which receives the raw extracted params/query/body and the
metadata value). -/
def runPipe (b : RouteHandlerBuilder) (hf : HandlerFn) (req : Req)
    (rctx : RouteCtx) : Except Err Response × List Ev :=
  match SrcMain.extractBody req with
  | .error e => (.error e, [])
  | .ok body0 =>
    match checkStage b.config.paramsSchema "params" "Invalid params"
        (extractParams rctx) with
    | (.error e, t1) => (.error e, t1)
    | (.ok _, t1) =>
      match checkStage b.config.querySchema "query" "Invalid query"
          (SrcMain.queryObj req) with
      | (.error e, t2) => (.error e, t1 ++ t2)
      | (.ok _, t2) =>
        match checkStage b.config.bodySchema "body" "Invalid body" body0 with
        | (.error e, t3) => (.error e, t1 ++ t2 ++ t3)
        | (.ok _, t3) =>
          match metadataStage b.metadataSchema b.metadataValue with
          | (.error e, t4) => (.error e, t1 ++ t2 ++ t3 ++ t4)
          | (.ok _, t4) =>
            match runMws b.middlewares req b.metadataValue [] 0 with
            | (.error e, tm) => (.error (.other e), t1 ++ t2 ++ t3 ++ t4 ++ tm)
            | (.ok mctx, tm) =>
              match hf req ⟨extractParams rctx, SrcMain.queryObj req, body0,
                  mctx, b.metadataValue⟩ with
              | .error e =>
                (.error (.other e),
                  t1 ++ t2 ++ t3 ++ t4 ++ tm ++ [.handlerRun])
              | .ok resp =>
                (.ok resp, t1 ++ t2 ++ t3 ++ t4 ++ tm ++ [.handlerRun])

/-- The catch block of this revision (same order as `SrcMain`): internal
errors become 400 responses; other errors go to the custom handler when
configured, else to the generic 500 response. -/
def catchBoundary (b : RouteHandlerBuilder) (r : Except Err Response) :
    Response :=
  match r with
  | .ok resp => resp
  | .error (.internalRoute msg issues) => ⟨400, .jsonMsgErrors msg issues⟩
  | .error (.other e) =>
    match b.handleServerError with
    | some h => h e
    | none => ⟨500, .jsonMsg "Internal server error"⟩

/-- The produced route handler of this revision. -/
def routeHandler (b : RouteHandlerBuilder) (hf : HandlerFn) (req : Req)
    (rctx : RouteCtx) : Response :=
  catchBoundary b (runPipe b hf req rctx).1

end NextZodRoute.MetaVer

namespace NextZodRoute

/-! ### Derived notions used in claim statements -/

/-- A middleware built from a total fragment function (one that never
throws). -/
def mkOk (f : Req → Ctx → Ctx) : SrcMain.Mw := fun req c => .ok (f req c)

/-- The left fold of middleware fragments over an accumulator: each
fragment function receives the request and the accumulator built by all
earlier ones, and its fragment is spread (shallow key overwrite) into the
accumulator. -/
def jsFold (fs : List (Req → Ctx → Ctx)) (req : Req) (acc : Ctx) : Ctx :=
  fs.foldl (fun a f => spread a (f req a)) acc

/-! ### Concrete gadgets used by the witnesses -/

/-- A schema that rejects every input with a single issue. -/
def failSchema : Schema := ⟨fun _ => .error [⟨[], "boom"⟩]⟩

/-- A schema that accepts every input unchanged. -/
def okSchema : Schema := ⟨fun v => .ok v⟩

/-- A schema that accepts only numbers and canonicalizes them by doubling
(so its parsed output is observably different from its raw input). -/
def doubleSchema : Schema :=
  ⟨fun v =>
    match v with
    | .vNum n => .ok (.vNum (2 * n))
    | _ => .error [⟨[], "Expected number"⟩]⟩

/-- A custom server-error handler echoing the error message at status 502. -/
def customH : String → Response := fun e => ⟨502, .raw e⟩

/-- A user handler that always succeeds with a fixed 200 response. -/
def hfOk : SrcMain.HandlerFn := fun _ _ => .ok ⟨200, .jsonMsg "ok"⟩

/-- A GET request with an empty query string and a well-formed empty body. -/
def reqGet : Req := ⟨"GET", [], .ok (.vObj [])⟩

/-- A route context carrying no params. -/
def rctx0 : RouteCtx := ⟨none⟩

/-- A builder with a failing params schema and a custom server-error
handler. -/
def bC1 : SrcMain.RouteHandlerBuilder :=
  ⟨⟨some failSchema, none, none⟩, [], some customH⟩

/-- A builder on which all three schemas are configured and all three
reject. -/
def bC2 : SrcMain.RouteHandlerBuilder :=
  ⟨⟨some failSchema, some failSchema, some failSchema⟩, [], some customH⟩

/-- A request on which `doubleSchema` parses params, query and body to
values different from the raw ones. -/
def reqC3 : Req := ⟨"POST", [], .ok (.vNum 7)⟩

/-- A route context carrying the numeric param `3`. -/
def rctxC3 : RouteCtx := ⟨some (.vNum 3)⟩

/-- A builder whose params and body schemas double their numeric input and
whose query schema accepts anything. -/
def bC3 : SrcMain.RouteHandlerBuilder :=
  ⟨⟨some doubleSchema, some okSchema, some doubleSchema⟩, [], none⟩

/-- A fragment function contributing `{user: "a"}`. -/
def fragA : Req → Ctx → Ctx := fun _ _ => [("user", .vStr "a")]

/-- A fragment function contributing `{user: "b", role: "admin"}`. -/
def fragB : Req → Ctx → Ctx := fun _ _ => [("user", .vStr "b"), ("role", .vStr "admin")]

/-- A schema-less builder with the two overlapping-key middlewares. -/
def bC5 : SrcMain.RouteHandlerBuilder :=
  ⟨⟨none, none, none⟩, [mkOk fragA, mkOk fragB], none⟩

/-- A metadata-revision middleware returning an empty fragment. -/
def mwMeta : MetaVer.Mw := fun _ _ _ => .ok []

/-- A metadata-revision builder with a registered metadata schema and the
initial `undefined` metadata value. -/
def bMeta : MetaVer.RouteHandlerBuilder :=
  ⟨⟨none, none, none⟩, [], none, some okSchema, .vUndef⟩

/-- A metadata-revision builder with no registered metadata schema. -/
def bMetaNone : MetaVer.RouteHandlerBuilder :=
  ⟨⟨none, none, none⟩, [], none, none, .vUndef⟩

/-- A schema-less builder with no custom server-error handler. -/
def bPlain : SrcMain.RouteHandlerBuilder := ⟨⟨none, none, none⟩, [], none⟩

/-- A schema-less builder with a custom server-error handler. -/
def bC7 : SrcMain.RouteHandlerBuilder :=
  ⟨⟨none, none, none⟩, [], some customH⟩

/-- A POST request whose body is malformed JSON (`request.json()`
rejects). -/
def reqBad : Req := ⟨"POST", [], .error "Unexpected token"⟩

/-- A metadata-revision user handler that always succeeds with a fixed 200
response. -/
def hfMetaOk : MetaVer.HandlerFn := fun _ _ => .ok ⟨200, .jsonMsg "ok"⟩

/-- A metadata-revision builder with a middleware, a custom server-error
handler, a number-only metadata schema, and the initial `undefined`
metadata value (so the request-time metadata check fails). -/
def bC9 : MetaVer.RouteHandlerBuilder :=
  ⟨⟨none, none, none⟩, [mwMeta], some customH, some doubleSchema, .vUndef⟩

/-- Whether a value is an object all of whose property values are
strings. -/
def valuesAllStrings : Val → Bool
  | .vObj entries => entries.all (fun kv => kv.2.isStr)
  | _ => false

/-! ### Object-algebra lemmas -/

/-- Reading a key after an assignment: the assigned value at the assigned
key, and the old value elsewhere. -/
theorem getKey_setKey {α : Type} (m : List (String × α)) (k' : String)
    (v : α) (k : String) :
    getKey (setKey m k' v) k = if k' = k then some v else getKey m k := by
  induction m with
  | nil => simp [setKey, getKey]
  | cons hd tl ih =>
    obtain ⟨k₀, v₀⟩ := hd
    by_cases h0 : k₀ = k'
    · subst h0
      simp only [setKey, if_pos rfl, getKey]
      by_cases hk : k₀ = k
      · simp [hk]
      · simp [hk]
    · simp only [setKey, if_neg h0, getKey]
      by_cases hk : k₀ = k
      · subst hk
        have : ¬ k' = k₀ := fun h => h0 h.symm
        simp [this]
      · simp [hk, ih]

/-- Reading `spread` output back, read back: the last occurrence in the
spread entries wins, and absent keys fall through to the accumulator. -/
theorem getKey_spread {α : Type} (l : List (String × α)) (a : List (String × α))
    (k : String) :
    getKey (spread a l) k = (lastVal l k).or (getKey a k) := by
  induction l generalizing a with
  | nil => simp [spread, lastVal]
  | cons hd tl ih =>
    obtain ⟨k', v⟩ := hd
    show getKey (spread (setKey a k' v) tl) k = _
    rw [ih]
    simp only [lastVal]
    cases htl : lastVal tl k with
    | some w => simp [Option.or]
    | none =>
      rw [getKey_setKey]
      by_cases hk : k' = k
      · simp [hk, Option.or]
      · simp [hk, Option.or]

/-- The keys after an assignment: unchanged when the key was present,
extended by the key when it was absent. -/
theorem keys_setKey {α : Type} (m : List (String × α)) (k : String) (v : α) :
    (setKey m k v).map Prod.fst =
      if k ∈ m.map Prod.fst then m.map Prod.fst else m.map Prod.fst ++ [k] := by
  induction m with
  | nil => simp [setKey]
  | cons hd tl ih =>
    obtain ⟨k₀, v₀⟩ := hd
    by_cases h0 : k₀ = k
    · subst h0
      simp [setKey]
    · have h0' : ¬ k = k₀ := fun h => h0 h.symm
      simp only [setKey, if_neg h0, List.map_cons, List.mem_cons, h0',
        false_or, ih]
      by_cases hk : k ∈ tl.map Prod.fst
      · simp [hk]
      · simp [hk]

/-- Assignment preserves distinctness of keys. -/
theorem nodup_keys_setKey {α : Type} (m : List (String × α)) (k : String)
    (v : α) (h : (m.map Prod.fst).Nodup) :
    ((setKey m k v).map Prod.fst).Nodup := by
  rw [keys_setKey]
  by_cases hk : k ∈ m.map Prod.fst
  · simpa [hk]
  · simp only [hk, if_false]
    refine List.Nodup.append h (List.nodup_singleton k) ?_
    intro a ha hak
    rw [List.mem_singleton] at hak
    exact hk (hak ▸ ha)

/-- Spreading preserves distinctness of keys. -/
theorem nodup_keys_spread {α : Type} (l : List (String × α))
    (a : List (String × α)) (h : (a.map Prod.fst).Nodup) :
    ((spread a l).map Prod.fst).Nodup := by
  induction l generalizing a with
  | nil => simpa [spread]
  | cons hd tl ih =>
    exact ih (setKey a hd.1 hd.2) (nodup_keys_setKey a hd.1 hd.2 h)

end NextZodRoute

namespace NextZodRoute.SrcMain

open NextZodRoute

/-! ### Stage and pipeline lemmas for the `src/` revision -/

theorem valStage_none (label msg : String) (v : Val) :
    valStage none label msg v = (.ok v, []) := rfl

theorem valStage_some_ok {s : Schema} {v d : Val} (label msg : String)
    (h : s.safeParse v = .ok d) :
    valStage (some s) label msg v = (.ok d, [.parsed label]) := by
  simp [valStage, h]

theorem valStage_some_err {s : Schema} {v : Val} {issues : List Issue}
    (label msg : String) (h : s.safeParse v = .error issues) :
    valStage (some s) label msg v = (.error (.internalRoute msg issues),
      [.parsed label]) := by
  simp [valStage, h]

theorem runPipe_extractFail {req : Req} {e : String}
    (b : RouteHandlerBuilder) (hf : HandlerFn) (rctx : RouteCtx)
    (hw : extractBody req = .error (.other e)) :
    runPipe b hf req rctx = (.error (.other e), []) := by
  simp [runPipe, hw]

theorem runPipe_paramsFail {b : RouteHandlerBuilder} {req : Req}
    {rctx : RouteCtx} {w : Val} {e : Err} {t1 : List Ev} (hf : HandlerFn)
    (hw : extractBody req = .ok w)
    (hp : valStage b.config.paramsSchema "params" "Invalid params"
      (extractParams rctx) = (.error e, t1)) :
    runPipe b hf req rctx = (.error e, t1) := by
  simp [runPipe, hw, hp]

theorem runPipe_queryFail {b : RouteHandlerBuilder} {req : Req}
    {rctx : RouteCtx} {w p1 : Val} {e : Err} {t1 t2 : List Ev}
    (hf : HandlerFn) (hw : extractBody req = .ok w)
    (hp : valStage b.config.paramsSchema "params" "Invalid params"
      (extractParams rctx) = (.ok p1, t1))
    (hq : valStage b.config.querySchema "query" "Invalid query"
      (queryObj req) = (.error e, t2)) :
    runPipe b hf req rctx = (.error e, t1 ++ t2) := by
  simp [runPipe, hw, hp, hq]

theorem runPipe_bodyFail {b : RouteHandlerBuilder} {req : Req}
    {rctx : RouteCtx} {w p1 q1 : Val} {e : Err} {t1 t2 t3 : List Ev}
    (hf : HandlerFn) (hw : extractBody req = .ok w)
    (hp : valStage b.config.paramsSchema "params" "Invalid params"
      (extractParams rctx) = (.ok p1, t1))
    (hq : valStage b.config.querySchema "query" "Invalid query"
      (queryObj req) = (.ok q1, t2))
    (hb : valStage b.config.bodySchema "body" "Invalid body" w =
      (.error e, t3)) :
    runPipe b hf req rctx = (.error e, t1 ++ t2 ++ t3) := by
  simp [runPipe, hw, hp, hq, hb]

theorem runPipe_mwFail {b : RouteHandlerBuilder} {req : Req}
    {rctx : RouteCtx} {w p1 q1 b1 : Val} {e : String}
    {t1 t2 t3 tm : List Ev} (hf : HandlerFn)
    (hw : extractBody req = .ok w)
    (hp : valStage b.config.paramsSchema "params" "Invalid params"
      (extractParams rctx) = (.ok p1, t1))
    (hq : valStage b.config.querySchema "query" "Invalid query"
      (queryObj req) = (.ok q1, t2))
    (hb : valStage b.config.bodySchema "body" "Invalid body" w =
      (.ok b1, t3))
    (hm : runMws b.middlewares req [] 0 = (.error e, tm)) :
    runPipe b hf req rctx = (.error (.other e), t1 ++ t2 ++ t3 ++ tm) := by
  simp [runPipe, hw, hp, hq, hb, hm]

theorem runPipe_success {b : RouteHandlerBuilder} {req : Req}
    {rctx : RouteCtx} {w p1 q1 b1 : Val} {mctx : Ctx}
    {t1 t2 t3 tm : List Ev} (hf : HandlerFn)
    (hw : extractBody req = .ok w)
    (hp : valStage b.config.paramsSchema "params" "Invalid params"
      (extractParams rctx) = (.ok p1, t1))
    (hq : valStage b.config.querySchema "query" "Invalid query"
      (queryObj req) = (.ok q1, t2))
    (hb : valStage b.config.bodySchema "body" "Invalid body" w =
      (.ok b1, t3))
    (hm : runMws b.middlewares req [] 0 = (.ok mctx, tm)) :
    runPipe b hf req rctx =
      ((hf req ⟨p1, q1, b1, mctx⟩).mapError Err.other,
        t1 ++ t2 ++ t3 ++ tm ++ [.handlerRun]) := by
  cases hres : hf req ⟨p1, q1, b1, mctx⟩ with
  | error e => simp [runPipe, hw, hp, hq, hb, hm, hres, Except.mapError]
  | ok resp => simp [runPipe, hw, hp, hq, hb, hm, hres, Except.mapError]

theorem routeHandler_of_internalErr {b : RouteHandlerBuilder} {req : Req}
    {rctx : RouteCtx} {msg : String} {issues : List Issue} {t : List Ev}
    (hf : HandlerFn)
    (h : runPipe b hf req rctx = (.error (.internalRoute msg issues), t)) :
    routeHandler b hf req rctx = ⟨400, .jsonMsgErrors msg issues⟩ := by
  simp [routeHandler, h, catchBoundary]

end NextZodRoute.SrcMain

namespace NextZodRoute

/-! ### Claims C1 and C2 -/

/-- Claim C1: whenever a configured params, query, or body schema fails
validation (in the reachable order: params first, then query given params
passed, then body given both passed), the produced handler returns status
exactly 400 with the `{ message, errors }` body naming the failing input and
carrying the issue list of that schema — for every builder, in particular for every
configured custom server-error handler, which is never consulted. -/
theorem claim_C1_validation_failures_are_400
    (b : SrcMain.RouteHandlerBuilder) (hf : SrcMain.HandlerFn) (req : Req)
    (rctx : RouteCtx) (w : Val) (hw : SrcMain.extractBody req = .ok w) :
    (∀ s issues, b.config.paramsSchema = some s →
      s.safeParse (SrcMain.extractParams rctx) = .error issues →
      SrcMain.routeHandler b hf req rctx =
        ⟨400, .jsonMsgErrors "Invalid params" issues⟩)
    ∧ (∀ s issues p1 t1,
        SrcMain.valStage b.config.paramsSchema "params" "Invalid params"
          (SrcMain.extractParams rctx) = (.ok p1, t1) →
        b.config.querySchema = some s →
        s.safeParse (SrcMain.queryObj req) = .error issues →
        SrcMain.routeHandler b hf req rctx =
          ⟨400, .jsonMsgErrors "Invalid query" issues⟩)
    ∧ (∀ s issues p1 t1 q1 t2,
        SrcMain.valStage b.config.paramsSchema "params" "Invalid params"
          (SrcMain.extractParams rctx) = (.ok p1, t1) →
        SrcMain.valStage b.config.querySchema "query" "Invalid query"
          (SrcMain.queryObj req) = (.ok q1, t2) →
        b.config.bodySchema = some s →
        s.safeParse w = .error issues →
        SrcMain.routeHandler b hf req rctx =
          ⟨400, .jsonMsgErrors "Invalid body" issues⟩) := by
  refine ⟨?_, ?_, ?_⟩
  · intro s issues hs hfail
    exact SrcMain.routeHandler_of_internalErr hf
      (SrcMain.runPipe_paramsFail hf hw
        (by rw [hs]; exact SrcMain.valStage_some_err _ _ hfail))
  · intro s issues p1 t1 hp hs hfail
    exact SrcMain.routeHandler_of_internalErr hf
      (SrcMain.runPipe_queryFail hf hw hp
        (by rw [hs]; exact SrcMain.valStage_some_err _ _ hfail))
  · intro s issues p1 t1 q1 t2 hp hq hs hfail
    exact SrcMain.routeHandler_of_internalErr hf
      (SrcMain.runPipe_bodyFail hf hw hp hq
        (by rw [hs]; exact SrcMain.valStage_some_err _ _ hfail))

/-- Witness for C1: a builder with a failing params schema and a custom
server-error handler still answers 400 `Invalid params`. -/
theorem claim_C1_witness :
    SrcMain.routeHandler bC1 hfOk reqGet rctx0 =
      ⟨400, .jsonMsgErrors "Invalid params" [⟨[], "boom"⟩]⟩ :=
  (claim_C1_validation_failures_are_400 bC1 hfOk reqGet rctx0 (.vObj [])
    rfl).1 failSchema [⟨[], "boom"⟩] rfl rfl

/-- Claim C2: the configured schemas are invoked in the fixed order params,
query, body; on the first failure the pipeline stops immediately — the
trace shows exactly the schemas invoked so far and no middleware or handler
event — and the failure names the failing input with the issue list of that
schema; on full success the trace shows all three invocations in that fixed
order before the middleware and handler events. -/
theorem claim_C2_validation_order_and_short_circuit
    (b : SrcMain.RouteHandlerBuilder) (hf : SrcMain.HandlerFn) (req : Req)
    (rctx : RouteCtx) (w : Val) (hw : SrcMain.extractBody req = .ok w) :
    (∀ s issues, b.config.paramsSchema = some s →
      s.safeParse (SrcMain.extractParams rctx) = .error issues →
      SrcMain.runPipe b hf req rctx =
        (.error (.internalRoute "Invalid params" issues),
          [.parsed "params"]))
    ∧ (∀ s issues p1 t1,
        SrcMain.valStage b.config.paramsSchema "params" "Invalid params"
          (SrcMain.extractParams rctx) = (.ok p1, t1) →
        b.config.querySchema = some s →
        s.safeParse (SrcMain.queryObj req) = .error issues →
        SrcMain.runPipe b hf req rctx =
          (.error (.internalRoute "Invalid query" issues),
            t1 ++ [.parsed "query"]))
    ∧ (∀ s issues p1 t1 q1 t2,
        SrcMain.valStage b.config.paramsSchema "params" "Invalid params"
          (SrcMain.extractParams rctx) = (.ok p1, t1) →
        SrcMain.valStage b.config.querySchema "query" "Invalid query"
          (SrcMain.queryObj req) = (.ok q1, t2) →
        b.config.bodySchema = some s →
        s.safeParse w = .error issues →
        SrcMain.runPipe b hf req rctx =
          (.error (.internalRoute "Invalid body" issues),
            t1 ++ t2 ++ [.parsed "body"]))
    ∧ (∀ sp sq sb p1 q1 b1 mctx tm,
        b.config.paramsSchema = some sp →
        sp.safeParse (SrcMain.extractParams rctx) = .ok p1 →
        b.config.querySchema = some sq →
        sq.safeParse (SrcMain.queryObj req) = .ok q1 →
        b.config.bodySchema = some sb →
        sb.safeParse w = .ok b1 →
        SrcMain.runMws b.middlewares req [] 0 = (.ok mctx, tm) →
        (SrcMain.runPipe b hf req rctx).2 =
          [.parsed "params", .parsed "query", .parsed "body"] ++ tm ++
            [.handlerRun]) := by
  refine ⟨?_, ?_, ?_, ?_⟩
  · intro s issues hs hfail
    have := SrcMain.runPipe_paramsFail hf hw
      (by rw [hs]; exact SrcMain.valStage_some_err _ _ hfail)
    simpa using this
  · intro s issues p1 t1 hp hs hfail
    have := SrcMain.runPipe_queryFail hf hw hp
      (by rw [hs]; exact SrcMain.valStage_some_err _ _ hfail)
    simpa using this
  · intro s issues p1 t1 q1 t2 hp hq hs hfail
    have := SrcMain.runPipe_bodyFail hf hw hp hq
      (by rw [hs]; exact SrcMain.valStage_some_err _ _ hfail)
    simpa using this
  · intro sp sq sb p1 q1 b1 mctx tm hsp hp hsq hq hsb hb hm
    have := SrcMain.runPipe_success hf hw
      (by rw [hsp]; exact SrcMain.valStage_some_ok _ _ hp)
      (by rw [hsq]; exact SrcMain.valStage_some_ok _ _ hq)
      (by rw [hsb]; exact SrcMain.valStage_some_ok _ _ hb) hm
    rw [this]
    simp

/-- A user-handler outcome surfaces through the catch block exactly as
`finalize` describes. -/
theorem catchBoundary_mapError (b : SrcMain.RouteHandlerBuilder)
    (r : Except String Response) :
    SrcMain.catchBoundary b (r.mapError Err.other) = SrcMain.finalize b r := by
  cases r <;> rfl

/-- Claim C3: when the configured schemas all succeed, the user handler is
invoked on exactly the values the validation stages produced, and a stage
with a configured schema produces the parsed (`.ok`) data of `safeParse` — so
the handler never observes the pre-validation value of an input whose
schema is configured. -/
theorem claim_C3_handler_sees_parsed_values
    (b : SrcMain.RouteHandlerBuilder) (hf : SrcMain.HandlerFn) (req : Req)
    (rctx : RouteCtx) (w p1 q1 b1 : Val) (mctx : Ctx)
    (t1 t2 t3 tm : List Ev) (hw : SrcMain.extractBody req = .ok w)
    (hp : SrcMain.valStage b.config.paramsSchema "params" "Invalid params"
      (SrcMain.extractParams rctx) = (.ok p1, t1))
    (hq : SrcMain.valStage b.config.querySchema "query" "Invalid query"
      (SrcMain.queryObj req) = (.ok q1, t2))
    (hb : SrcMain.valStage b.config.bodySchema "body" "Invalid body" w =
      (.ok b1, t3))
    (hm : SrcMain.runMws b.middlewares req [] 0 = (.ok mctx, tm)) :
    SrcMain.routeHandler b hf req rctx =
      SrcMain.finalize b (hf req ⟨p1, q1, b1, mctx⟩)
    ∧ (∀ (label msg : String) (s : Schema) (v d : Val),
        s.safeParse v = .ok d →
        SrcMain.valStage (some s) label msg v = (.ok d, [.parsed label])) := by
  constructor
  · have h := SrcMain.runPipe_success hf hw hp hq hb hm
    rw [SrcMain.routeHandler, h]
    exact catchBoundary_mapError b _
  · intro label msg s v d hd
    exact SrcMain.valStage_some_ok label msg hd

/-- Witness for C3: the handler receives the doubled (parsed) params `6`
and body `14`, not the raw `3` and `7`. -/
theorem claim_C3_witness :
    SrcMain.routeHandler bC3 hfOk reqC3 rctxC3 =
      SrcMain.finalize bC3 (hfOk reqC3 ⟨.vNum 6, .vObj [], .vNum 14, []⟩) :=
  (claim_C3_handler_sees_parsed_values bC3 hfOk reqC3 rctxC3 (.vNum 7)
    (.vNum 6) (.vObj []) (.vNum 14) [] [.parsed "params"] [.parsed "query"]
    [.parsed "body"] [] rfl rfl rfl rfl rfl).1

/-- Witness for C2: with all three schemas configured and rejecting, the
pipeline stops after invoking only the params schema. -/
theorem claim_C2_witness :
    SrcMain.runPipe bC2 hfOk reqGet rctx0 =
      (.error (.internalRoute "Invalid params" [⟨[], "boom"⟩]),
        [.parsed "params"]) :=
  (claim_C2_validation_order_and_short_circuit bC2 hfOk reqGet rctx0
    (.vObj []) rfl).1 failSchema [⟨[], "boom"⟩] rfl rfl

/-! ### Claims C4 to C7 -/

/-- The middleware loop on never-throwing middlewares computes exactly the
left fold of their fragments. -/
theorem runMws_mkOk (fs : List (Req → Ctx → Ctx)) (req : Req) (acc : Ctx)
    (k : Nat) :
    (SrcMain.runMws (fs.map mkOk) req acc k).1 = .ok (jsFold fs req acc) := by
  induction fs generalizing acc k with
  | nil => rfl
  | cons f tl ih =>
    simpa [SrcMain.runMws, mkOk, jsFold] using ih (spread acc (f req acc)) (k + 1)

/-- Claim C4: every chain call of both revisions returns a new builder
equal to the value of the receiver with exactly one configuration change —
`params`/`query`/`body` overwrite one schema slot, `use` copies the
middleware sequence and appends, and `metadata` (with a registered schema)
overwrites only the metadata value.  Receivers are values of the
embedding, so the configuration of the receiver is untouched by
construction, mirroring the spread-based construction in the source of a fresh object. -/
theorem claim_C4_chain_calls_are_pure
    (b : SrcMain.RouteHandlerBuilder) (s : Schema) (m : SrcMain.Mw)
    (b' : MetaVer.RouteHandlerBuilder) (s' : Schema) (m' : MetaVer.Mw)
    (v : Val) :
    b.params s = { b with config := { b.config with paramsSchema := some s } }
    ∧ b.query s = { b with config := { b.config with querySchema := some s } }
    ∧ b.body s = { b with config := { b.config with bodySchema := some s } }
    ∧ b.use m = { b with middlewares := b.middlewares ++ [m] }
    ∧ b'.params s' =
        { b' with config := { b'.config with paramsSchema := some s' } }
    ∧ b'.query s' =
        { b' with config := { b'.config with querySchema := some s' } }
    ∧ b'.body s' =
        { b' with config := { b'.config with bodySchema := some s' } }
    ∧ b'.use m' = { b' with middlewares := b'.middlewares ++ [m'] }
    ∧ (∀ ms, b'.metadataSchema = some ms →
        b'.metadata v = .ok { b' with metadataValue := v }) := by
  refine ⟨rfl, rfl, rfl, rfl, rfl, rfl, rfl, rfl, ?_⟩
  intro ms hms
  simp [MetaVer.RouteHandlerBuilder.metadata, hms]

/-- Witness for C4: on a builder with a registered metadata schema,
`metadata` returns the builder with only the metadata value replaced. -/
theorem claim_C4_witness :
    bMeta.metadata (.vStr "x") =
      .ok { bMeta with metadataValue := .vStr "x" } :=
  (claim_C4_chain_calls_are_pure bPlain okSchema (mkOk fragA) bMeta okSchema
    mwMeta (.vStr "x")).2.2.2.2.2.2.2.2 okSchema rfl

/-- Claim C5: the context handed to the user handler under `data` is the
left fold of the middleware fragments over the empty accumulator in
registration order (each middleware receiving the request and the
accumulator built by all earlier ones), merged by shallow key overwrite;
and on key collision the entry spread later wins. -/
theorem claim_C5_middleware_fold
    (b : SrcMain.RouteHandlerBuilder) (hf : SrcMain.HandlerFn) (req : Req)
    (rctx : RouteCtx) (w p1 q1 b1 : Val) (t1 t2 t3 : List Ev)
    (fs : List (Req → Ctx → Ctx)) (hw : SrcMain.extractBody req = .ok w)
    (hp : SrcMain.valStage b.config.paramsSchema "params" "Invalid params"
      (SrcMain.extractParams rctx) = (.ok p1, t1))
    (hq : SrcMain.valStage b.config.querySchema "query" "Invalid query"
      (SrcMain.queryObj req) = (.ok q1, t2))
    (hb : SrcMain.valStage b.config.bodySchema "body" "Invalid body" w =
      (.ok b1, t3))
    (hmw : b.middlewares = fs.map mkOk) :
    SrcMain.routeHandler b hf req rctx =
      SrcMain.finalize b (hf req ⟨p1, q1, b1, jsFold fs req []⟩)
    ∧ (∀ (a frag : Ctx) (k : String),
        getKey (spread a frag) k = (lastVal frag k).or (getKey a k)) := by
  constructor
  · have h1 : (SrcMain.runMws b.middlewares req [] 0).1 =
        .ok (jsFold fs req []) := by
      rw [hmw]; exact runMws_mkOk fs req [] 0
    have hm : SrcMain.runMws b.middlewares req [] 0 =
        (.ok (jsFold fs req []), (SrcMain.runMws b.middlewares req [] 0).2) := by
      rw [← h1]
    have h := SrcMain.runPipe_success hf hw hp hq hb hm
    rw [SrcMain.routeHandler, h]
    exact catchBoundary_mapError b _
  · intro a frag k
    exact getKey_spread frag a k

/-- Witness for C5: with middlewares contributing `{user: "a"}` then
`{user: "b", role: "admin"}`, the `data` of the handler is their fold; its
`user` key holds `"b"` (the later middleware won). -/
theorem claim_C5_witness :
    SrcMain.routeHandler bC5 hfOk reqGet rctx0 =
      SrcMain.finalize bC5
        (hfOk reqGet ⟨.vObj [], .vObj [], .vObj [],
          jsFold [fragA, fragB] reqGet []⟩)
    ∧ getKey (jsFold [fragA, fragB] reqGet []) "user" = some (.vStr "b") :=
  ⟨(claim_C5_middleware_fold bC5 hfOk reqGet rctx0 (.vObj []) (.vObj [])
      (.vObj []) (.vObj []) [] [] [] [fragA, fragB] rfl rfl rfl rfl rfl).1,
    rfl⟩

/-- Claim C6: the body of a GET request is the empty object with no read of the
request body (`extractBody` is constantly `{}` on GET, whatever
`request.json()` would have produced, and a configured body schema is
applied to `{}`); the body of a non-GET request is JSON-parsed even with no
body schema configured, so a malformed body fails the pipeline with a
non-validation error. -/
theorem claim_C6_get_body_handling :
    (∀ (m : String) (se : List (String × String)) (jb : Except String Val),
      m = "GET" → SrcMain.extractBody ⟨m, se, jb⟩ = .ok (.vObj []))
    ∧ (∀ (b : SrcMain.RouteHandlerBuilder) (hf : SrcMain.HandlerFn)
        (rctx : RouteCtx) (se : List (String × String)) (e : String)
        (s : Schema) (issues : List Issue) (p1 q1 : Val) (t1 t2 : List Ev),
        SrcMain.valStage b.config.paramsSchema "params" "Invalid params"
          (SrcMain.extractParams rctx) = (.ok p1, t1) →
        SrcMain.valStage b.config.querySchema "query" "Invalid query"
          (SrcMain.queryObj ⟨"GET", se, .error e⟩) = (.ok q1, t2) →
        b.config.bodySchema = some s →
        s.safeParse (.vObj []) = .error issues →
        (SrcMain.runPipe b hf ⟨"GET", se, .error e⟩ rctx).1 =
          .error (.internalRoute "Invalid body" issues))
    ∧ (∀ (b : SrcMain.RouteHandlerBuilder) (hf : SrcMain.HandlerFn)
        (req : Req) (rctx : RouteCtx) (e : String),
        req.method ≠ "GET" → req.jsonBody = .error e →
        b.config.bodySchema = none →
        (SrcMain.runPipe b hf req rctx).1 = .error (.other e)
        ∧ SrcMain.routeHandler b hf req rctx =
            SrcMain.catchBoundary b (.error (.other e))) := by
  refine ⟨?_, ?_, ?_⟩
  · intro m se jb hm
    subst hm
    simp [SrcMain.extractBody]
  · intro b hf rctx se e s issues p1 q1 t1 t2 hp hq hs hfail
    have hw : SrcMain.extractBody ⟨"GET", se, .error e⟩ = .ok (.vObj []) := by
      simp [SrcMain.extractBody]
    have h := SrcMain.runPipe_bodyFail hf hw hp hq
      (by rw [hs]; exact SrcMain.valStage_some_err _ _ hfail)
    rw [h]
  · intro b hf req rctx e hne hjb _
    have hw : SrcMain.extractBody req = .error (.other e) := by
      simp [SrcMain.extractBody, hne, hjb]
    have h := SrcMain.runPipe_extractFail b hf rctx hw
    exact ⟨by rw [h], by rw [SrcMain.routeHandler, h]⟩

/-- Witness for C6: a schema-less POST with a malformed body fails the
pipeline with the thrown parse error. -/
theorem claim_C6_witness :
    (SrcMain.runPipe bPlain hfOk reqBad rctx0).1 =
      .error (.other "Unexpected token")
    ∧ SrcMain.routeHandler bPlain hfOk reqBad rctx0 =
        SrcMain.catchBoundary bPlain (.error (.other "Unexpected token")) :=
  claim_C6_get_body_handling.2.2 bPlain hfOk reqBad rctx0 "Unexpected token"
    (by decide) rfl rfl

/-- Claim C7: every non-validation failure — a malformed JSON body during
extraction, a throwing middleware, or a throwing user handler — reaches
the catch block as a non-internal error, which returns exactly the custom
response of the custom handler when one is configured and otherwise the
generic 500 `{"message": "Internal server error"}` response. -/
theorem claim_C7_server_errors_delegated :
    (∀ (b : SrcMain.RouteHandlerBuilder) (hf : SrcMain.HandlerFn) (req : Req)
        (rctx : RouteCtx) (e : String),
      req.method ≠ "GET" → req.jsonBody = .error e →
      SrcMain.routeHandler b hf req rctx =
        SrcMain.catchBoundary b (.error (.other e)))
    ∧ (∀ (b : SrcMain.RouteHandlerBuilder) (hf : SrcMain.HandlerFn)
        (req : Req) (rctx : RouteCtx) (w p1 q1 b1 : Val)
        (t1 t2 t3 tm : List Ev) (e : String),
        SrcMain.extractBody req = .ok w →
        SrcMain.valStage b.config.paramsSchema "params" "Invalid params"
          (SrcMain.extractParams rctx) = (.ok p1, t1) →
        SrcMain.valStage b.config.querySchema "query" "Invalid query"
          (SrcMain.queryObj req) = (.ok q1, t2) →
        SrcMain.valStage b.config.bodySchema "body" "Invalid body" w =
          (.ok b1, t3) →
        SrcMain.runMws b.middlewares req [] 0 = (.error e, tm) →
        SrcMain.routeHandler b hf req rctx =
          SrcMain.catchBoundary b (.error (.other e)))
    ∧ (∀ (b : SrcMain.RouteHandlerBuilder) (hf : SrcMain.HandlerFn)
        (req : Req) (rctx : RouteCtx) (w p1 q1 b1 : Val) (mctx : Ctx)
        (t1 t2 t3 tm : List Ev) (e : String),
        SrcMain.extractBody req = .ok w →
        SrcMain.valStage b.config.paramsSchema "params" "Invalid params"
          (SrcMain.extractParams rctx) = (.ok p1, t1) →
        SrcMain.valStage b.config.querySchema "query" "Invalid query"
          (SrcMain.queryObj req) = (.ok q1, t2) →
        SrcMain.valStage b.config.bodySchema "body" "Invalid body" w =
          (.ok b1, t3) →
        SrcMain.runMws b.middlewares req [] 0 = (.ok mctx, tm) →
        hf req ⟨p1, q1, b1, mctx⟩ = .error e →
        SrcMain.routeHandler b hf req rctx =
          SrcMain.catchBoundary b (.error (.other e)))
    ∧ (∀ (b : SrcMain.RouteHandlerBuilder) (h : String → Response)
        (e : String), b.handleServerError = some h →
        SrcMain.catchBoundary b (.error (.other e)) = h e)
    ∧ (∀ (b : SrcMain.RouteHandlerBuilder) (e : String),
        b.handleServerError = none →
        SrcMain.catchBoundary b (.error (.other e)) =
          ⟨500, .jsonMsg "Internal server error"⟩) := by
  refine ⟨?_, ?_, ?_, ?_, ?_⟩
  · intro b hf req rctx e hne hjb
    have hw : SrcMain.extractBody req = .error (.other e) := by
      simp [SrcMain.extractBody, hne, hjb]
    rw [SrcMain.routeHandler, SrcMain.runPipe_extractFail b hf rctx hw]
  · intro b hf req rctx w p1 q1 b1 t1 t2 t3 tm e hw hp hq hb hm
    rw [SrcMain.routeHandler, SrcMain.runPipe_mwFail hf hw hp hq hb hm]
  · intro b hf req rctx w p1 q1 b1 mctx t1 t2 t3 tm e hw hp hq hb hm hh
    rw [SrcMain.routeHandler, SrcMain.runPipe_success hf hw hp hq hb hm, hh]
    rfl
  · intro b h e hh
    simp [SrcMain.catchBoundary, hh]
  · intro b e hh
    simp [SrcMain.catchBoundary, hh]

/-- Witness for C7: a malformed POST body on a builder with a custom
server-error handler yields exactly the response of that handler. -/
theorem claim_C7_witness :
    SrcMain.routeHandler bC7 hfOk reqBad rctx0 = customH "Unexpected token" :=
  (claim_C7_server_errors_delegated.1 bC7 hfOk reqBad rctx0
      "Unexpected token" (by decide) rfl).trans
    (claim_C7_server_errors_delegated.2.2.2.1 bC7 customH
      "Unexpected token" rfl)

/-! ### Claims C8 to C10 -/

/-- The metadata-revision check stages, evaluated on their three cases. -/
theorem checkStage_cases (label msg : String) (v : Val) :
    MetaVer.checkStage none label msg v = (.ok (), [])
    ∧ (∀ (s : Schema) (d : Val), s.safeParse v = .ok d →
        MetaVer.checkStage (some s) label msg v = (.ok (), [.parsed label]))
    ∧ (∀ (s : Schema) (issues : List Issue), s.safeParse v = .error issues →
        MetaVer.checkStage (some s) label msg v =
          (.error (.internalRoute msg issues), [.parsed label])) := by
  refine ⟨rfl, ?_, ?_⟩
  · intro s d h
    simp [MetaVer.checkStage, h]
  · intro s issues h
    simp [MetaVer.checkStage, h]

/-- The metadata stage on a failing re-validation: the diagnostic is
logged and the labelled internal error is thrown. -/
theorem metadataStage_err {s : Schema} {v : Val} {issues : List Issue}
    (h : s.safeParse v = .error issues) :
    MetaVer.metadataStage (some s) v =
      (.error (.internalRoute "Invalid metadata (Server Side)" issues),
        [.parsed "metadata", .logged MetaVer.metadataLogMsg]) := by
  simp [MetaVer.metadataStage, h]

/-- Claim C8: calling `metadata` on a builder whose creation registered no
metadata schema throws `Metadata schema is not defined` at configuration
time — the call is a function of the builder alone, decided before any
request exists — while with a registered schema it returns the new builder,
so a correctly-constructed chain can never carry this misuse into the
produced request handler. -/
theorem claim_C8_metadata_without_schema_fails_fast
    (b : MetaVer.RouteHandlerBuilder) (v : Val) :
    (b.metadataSchema = none →
      b.metadata v = .error "Metadata schema is not defined")
    ∧ (∀ s, b.metadataSchema = some s →
        b.metadata v = .ok { b with metadataValue := v }) := by
  constructor
  · intro h
    simp [MetaVer.RouteHandlerBuilder.metadata, h]
  · intro s h
    simp [MetaVer.RouteHandlerBuilder.metadata, h]

/-- Witness for C8: on a builder without a metadata schema the call throws
the configuration-time error. -/
theorem claim_C8_witness :
    bMetaNone.metadata (.vStr "x") =
      .error "Metadata schema is not defined" :=
  (claim_C8_metadata_without_schema_fails_fast bMetaNone (.vStr "x")).1 rfl

/-- Claim C9: with a registered metadata schema, the stored metadata value
is re-validated after the params/query/body checks and before the
middleware fold; on failure the `console.error` diagnostic is logged and
the response is the 400 `{ message, errors }` response labelled
`Invalid metadata (Server Side)` — for every builder, in particular
whatever custom server-error handler is configured, and the trace shows no
middleware or handler ran. -/
theorem claim_C9_metadata_revalidation
    (b : MetaVer.RouteHandlerBuilder) (hf : MetaVer.HandlerFn) (req : Req)
    (rctx : RouteCtx) (w : Val) (s : Schema) (issues : List Issue)
    (t1 t2 t3 : List Ev) (hw : SrcMain.extractBody req = .ok w)
    (hp : MetaVer.checkStage b.config.paramsSchema "params" "Invalid params"
      (MetaVer.extractParams rctx) = (.ok (), t1))
    (hq : MetaVer.checkStage b.config.querySchema "query" "Invalid query"
      (SrcMain.queryObj req) = (.ok (), t2))
    (hb : MetaVer.checkStage b.config.bodySchema "body" "Invalid body" w =
      (.ok (), t3))
    (hms : b.metadataSchema = some s)
    (hfail : s.safeParse b.metadataValue = .error issues) :
    MetaVer.routeHandler b hf req rctx =
      ⟨400, .jsonMsgErrors "Invalid metadata (Server Side)" issues⟩
    ∧ MetaVer.runPipe b hf req rctx =
        (.error (.internalRoute "Invalid metadata (Server Side)" issues),
          t1 ++ t2 ++ t3 ++ [.parsed "metadata", .logged MetaVer.metadataLogMsg]) := by
  have hmeta : MetaVer.metadataStage b.metadataSchema b.metadataValue =
      (.error (.internalRoute "Invalid metadata (Server Side)" issues),
        [.parsed "metadata", .logged MetaVer.metadataLogMsg]) := by
    rw [hms]; exact metadataStage_err hfail
  have hpipe : MetaVer.runPipe b hf req rctx =
      (.error (.internalRoute "Invalid metadata (Server Side)" issues),
        t1 ++ t2 ++ t3 ++ [.parsed "metadata", .logged MetaVer.metadataLogMsg]) := by
    simp [MetaVer.runPipe, hw, hp, hq, hb, hmeta]
  refine ⟨?_, hpipe⟩
  rw [MetaVer.routeHandler, hpipe]
  rfl

/-- Witness for C9: a GET request on a builder whose metadata schema
rejects the never-provided (`undefined`) metadata value: 400 with the
server-side metadata label, the diagnostic logged, no middleware or
handler event — despite a configured custom server-error handler and a
registered middleware. -/
theorem claim_C9_witness :
    MetaVer.routeHandler bC9 hfMetaOk reqGet rctx0 =
      ⟨400, .jsonMsgErrors "Invalid metadata (Server Side)"
        [⟨[], "Expected number"⟩]⟩
    ∧ MetaVer.runPipe bC9 hfMetaOk reqGet rctx0 =
        (.error (.internalRoute "Invalid metadata (Server Side)"
          [⟨[], "Expected number"⟩]),
          [] ++ [] ++ [] ++ [.parsed "metadata", .logged MetaVer.metadataLogMsg]) :=
  claim_C9_metadata_revalidation bC9 hfMetaOk reqGet rctx0 (.vObj [])
    doubleSchema [⟨[], "Expected number"⟩] [] [] [] rfl rfl rfl rfl rfl rfl

/-- Claim C10: the flat query mapping is built by assigning each query
string entry in order into an empty object, so each key ends up with
exactly one entry holding the value of its last occurrence, and every
value in the mapping is a single string. -/
theorem claim_C10_query_last_occurrence_wins :
    (∀ (l : List (String × String)) (k : String),
      getKey (fromEntries l) k = lastVal l k)
    ∧ (∀ l : List (String × String), ((fromEntries l).map Prod.fst).Nodup)
    ∧ (∀ req : Req, SrcMain.queryObj req =
        .vObj ((fromEntries req.searchEntries).map
          (fun kv => (kv.1, Val.vStr kv.2))))
    ∧ (∀ req : Req, valuesAllStrings (SrcMain.queryObj req) = true) := by
  refine ⟨?_, ?_, fun _ => rfl, ?_⟩
  · intro l k
    rw [fromEntries, getKey_spread]
    cases lastVal l k <;> rfl
  · intro l
    exact nodup_keys_spread l [] (by simp)
  · intro req
    simp only [SrcMain.queryObj, valuesAllStrings, List.all_eq_true]
    rintro ⟨k, v⟩ hmem
    simp only [List.mem_map] at hmem
    obtain ⟨kv, _, hkv⟩ := hmem
    cases hkv
    rfl

end NextZodRoute
